import Mathlib

/-!
Verification of the cache-through catalog query layer of the
`performance-datatable` backend (`backend/app/services/cache.py`,
`backend/app/services/product_service.py`, `backend/app/api/endpoints/products.py`,
`backend/app/models/product.py`).

The Python source is shallowly embedded: the persistent store is a `List Product`,
machine integers are `Nat`/`Int` (32-bit arithmetic inside MD5 is `Nat` reduced
modulo `2 ^ 32`), SQL `Numeric` columns are `ℚ`, and fallible paths return
`Option`/`Except`/`Bool` flags exactly where the Python code does.

The file is organized as definitions first (the embedding), then theorems
(the verification).
-/

set_option maxRecDepth 100000

/-! ## MD5 (the digest used by `CacheService._generate_key` via `hashlib.md5`)

A faithful executable embedding of the MD5 algorithm (RFC 1321) over byte lists,
with 32-bit words represented as `Nat` reduced modulo `2 ^ 32`. -/

namespace Md5

/-- 32-bit truncation. -/
def w32 (n : Nat) : Nat := n % 4294967296

/-- Bitwise NOT on a 32-bit word (valid for `x < 2 ^ 32`). -/
def wnot (x : Nat) : Nat := 4294967295 - x

/-- Left-rotation of a 32-bit word by `s` places (valid for `x < 2 ^ 32`, `s ≤ 32`). -/
def rotl (x s : Nat) : Nat := (x * 2 ^ s) % 4294967296 + x / 2 ^ (32 - s)

/-- The 64 sine-derived round constants `K[i] = floor(2^32 * abs(sin(i+1)))`. -/
def kTable : List Nat :=
  [3614090360, 3905402710, 606105819, 3250441966, 4118548399, 1200080426,
   2821735955, 4249261313, 1770035416, 2336552879, 4294925233, 2304563134,
   1804603682, 4254626195, 2792965006, 1236535329, 4129170786, 3225465664,
   643717713, 3921069994, 3593408605, 38016083, 3634488961, 3889429448,
   568446438, 3275163606, 4107603335, 1163531501, 2850285829, 4243563512,
   1735328473, 2368359562, 4294588738, 2272392833, 1839030562, 4259657740,
   2763975236, 1272893353, 4139469664, 3200236656, 681279174, 3936430074,
   3572445317, 76029189, 3654602809, 3873151461, 530742520, 3299628645,
   4096336452, 1126891415, 2878612391, 4237533241, 1700485571, 2399980690,
   4293915773, 2240044497, 1873313359, 4264355552, 2734768916, 1309151649,
   4149444226, 3174756917, 718787259, 3951481745]

/-- The per-round left-rotation amounts. -/
def sTable : List Nat :=
  [7, 12, 17, 22, 7, 12, 17, 22, 7, 12, 17, 22, 7, 12, 17, 22,
   5, 9, 14, 20, 5, 9, 14, 20, 5, 9, 14, 20, 5, 9, 14, 20,
   4, 11, 16, 23, 4, 11, 16, 23, 4, 11, 16, 23, 4, 11, 16, 23,
   6, 10, 15, 21, 6, 10, 15, 21, 6, 10, 15, 21, 6, 10, 15, 21]

/-- The MD5 working state: four 32-bit words. -/
structure St where
  a : Nat
  b : Nat
  c : Nat
  d : Nat

/-- The nonlinear mixing function of round `i`. -/
def mix (i b c d : Nat) : Nat :=
  if i < 16 then Nat.lor (Nat.land b c) (Nat.land (wnot b) d)
  else if i < 32 then Nat.lor (Nat.land d b) (Nat.land (wnot d) c)
  else if i < 48 then Nat.xor b (Nat.xor c d)
  else Nat.xor c (Nat.lor b (wnot d))

/-- The message-word index consumed by round `i`. -/
def gIdx (i : Nat) : Nat :=
  if i < 16 then i
  else if i < 32 then (5 * i + 1) % 16
  else if i < 48 then (3 * i + 5) % 16
  else (7 * i) % 16

/-- One MD5 round: `m` is the 16-word message schedule of the current chunk. -/
def step (m : Nat → Nat) (st : St) (i : Nat) : St :=
  let f := mix i st.b st.c st.d
  let tmp := (f + st.a + kTable.getD i 0 + m (gIdx i)) % 4294967296
  ⟨st.d, (st.b + rotl tmp (sTable.getD i 0)) % 4294967296, st.b, st.c⟩

/-- The 16 little-endian 32-bit words of a 64-byte chunk. -/
def chunkWords (chunk : List Nat) (j : Nat) : Nat :=
  chunk.getD (4 * j) 0 + 256 * chunk.getD (4 * j + 1) 0 +
    65536 * chunk.getD (4 * j + 2) 0 + 16777216 * chunk.getD (4 * j + 3) 0

/-- Process one 64-byte chunk: 64 rounds, then add into the running state. -/
def processChunk (st : St) (chunk : List Nat) : St :=
  let r := (List.range 64).foldl (step (chunkWords chunk)) st
  ⟨(st.a + r.a) % 4294967296, (st.b + r.b) % 4294967296,
   (st.c + r.c) % 4294967296, (st.d + r.d) % 4294967296⟩

/-- Process `fuel` leading 64-byte chunks of `bytes`. -/
def processChunks : Nat → St → List Nat → St
  | 0, st, _ => st
  | n + 1, st, bytes => processChunks n (processChunk st (bytes.take 64)) (bytes.drop 64)

/-- `val` as `nbytes` little-endian bytes. -/
def toLE : Nat → Nat → List Nat
  | 0, _ => []
  | n + 1, val => val % 256 :: toLE n (val / 256)

/-- MD5 padding: a `0x80` byte, zeros to 56 mod 64, then the bit length as
64-bit little-endian. -/
def pad (msg : List Nat) : List Nat :=
  let len := msg.length
  let zeros := (119 - len % 64) % 64
  msg ++ 128 :: List.replicate zeros 0 ++ toLE 8 ((8 * len) % 18446744073709551616)

/-- The 16 digest bytes of a byte-list message. -/
def md5Bytes (msg : List Nat) : List Nat :=
  let padded := pad msg
  let st := processChunks (padded.length / 64)
    ⟨1732584193, 4023233417, 2562383102, 271733878⟩ padded
  toLE 4 st.a ++ toLE 4 st.b ++ toLE 4 st.c ++ toLE 4 st.d

/-- A hex digit as a lowercase character. -/
def hexDigit (n : Nat) : Char :=
  if n < 10 then Char.ofNat (48 + n) else Char.ofNat (87 + n)

/-- A byte list as lowercase hex characters, two per byte. -/
def bytesToHex : List Nat → List Char
  | [] => []
  | b :: bs => hexDigit (b / 16) :: hexDigit (b % 16) :: bytesToHex bs

/-- The lowercase hex digest of a byte-list message (`hashlib.md5(...).hexdigest()`). -/
def hexdigest (msg : List Nat) : String := ⟨bytesToHex (md5Bytes msg)⟩

end Md5

/-! ## Cache-key derivation (`CacheService._generate_key`, cache.py lines 30-36)

```python
def _generate_key(self, prefix: str, params: dict) -> str:
    sorted_params = sorted(params.items())
    params_str = json.dumps(sorted_params, sort_keys=True)
    params_hash = hashlib.md5(params_str.encode()).hexdigest()
    return f"{prefix}:{params_hash}"
```

A parameter mapping is embedded as an association list `List (String × PVal)`
whose keys are pairwise distinct (Python dict keys are unique).  `sorted` on
`dict.items()` with distinct keys orders the pairs by key (code-point
lexicographic string order); `json.dumps` renders the tuple list as a JSON
array of two-element arrays with the default `", "`/`": "` separators and
`ensure_ascii=True` escaping; `.encode()` is UTF-8 (the serialized text is
pure ASCII since `ensure_ascii` escapes the rest). -/

namespace CacheKey

/-- A Python parameter value as it occurs in the cache-key mappings:
`None`, a string, an int, or a float (floats modelled as rationals). -/
inductive PVal where
  | null : PVal
  | str : String → PVal
  | int : Int → PVal
  | num : ℚ → PVal
deriving DecidableEq

/-- One `\uXXXX` escape of a 16-bit code unit. -/
def uEsc4 (n : Nat) : List Char :=
  ['\\', 'u', Md5.hexDigit (n / 4096 % 16), Md5.hexDigit (n / 256 % 16),
   Md5.hexDigit (n / 16 % 16), Md5.hexDigit (n % 16)]

/-- The `\uXXXX` escape (with a surrogate pair above `0xFFFF`) that
`json.dumps` emits for a non-printable or non-ASCII code point. -/
def uEscape (n : Nat) : List Char :=
  if n < 65536 then uEsc4 n
  else uEsc4 (55296 + (n - 65536) / 1024) ++ uEsc4 (56320 + (n - 65536) % 1024)

/-- `json.dumps` escaping of one character (`ensure_ascii=True`, the default):
`"` and `\` get a backslash, the usual control shorthands apply, and anything
outside the printable ASCII range becomes a `\uXXXX` escape. -/
def escChar (c : Char) : List Char :=
  if c = '"' then ['\\', '"']
  else if c = '\\' then ['\\', '\\']
  else if c.toNat = 10 then ['\\', 'n']
  else if c.toNat = 9 then ['\\', 't']
  else if c.toNat = 13 then ['\\', 'r']
  else if c.toNat = 8 then ['\\', 'b']
  else if c.toNat = 12 then ['\\', 'f']
  else if c.toNat < 32 then uEscape c.toNat
  else if 126 < c.toNat then uEscape c.toNat
  else [c]

/-- `json.dumps` escaping of a whole string body. -/
def escString (s : String) : List Char :=
  s.data.foldr (fun c acc => escChar c ++ acc) []

/-- Python `repr`-style rendering of a float with a finite decimal expansion
(every IEEE-754 double has one); used by `json.dumps` for float parameters.
Computed on the numerator/denominator directly so that it evaluates by
kernel-accelerated integer arithmetic. -/
def floatRepr (q : ℚ) : List Char :=
  match (List.range 40).findSome?
      (fun e => if 10 ^ e % q.den = 0 then some e else none) with
  | none => (toString q.num).data ++ '/' :: (toString q.den).data
  | some 0 => (toString q.num).data ++ ['.', '0']
  | some (e + 1) =>
    let m := q.num.natAbs * (10 ^ (e + 1) / q.den)
    let ds := (toString m).data
    let padded := List.replicate (e + 2 - ds.length) '0' ++ ds
    let k := padded.length - (e + 1)
    (if q.num < 0 then ['-'] else []) ++ padded.take k ++ '.' :: padded.drop k

/-- `json.dumps` rendering of one parameter value. -/
def serVal : PVal → List Char
  | .null => ['n', 'u', 'l', 'l']
  | .str s => '"' :: escString s ++ ['"']
  | .int n => (toString n).data
  | .num q => floatRepr q

/-- The opening of a serialized `(key, value)` tuple: `["<key>", `. -/
def serPairPre (k : String) : List Char :=
  '[' :: '"' :: escString k ++ ['"', ',', ' ']

/-- `json.dumps` rendering of one `(key, value)` tuple as a JSON array. -/
def serPair (p : String × PVal) : List Char :=
  serPairPre p.1 ++ serVal p.2 ++ [']']

/-- The comma-separated body of the serialized tuple list. -/
def serList : List (String × PVal) → List Char
  | [] => []
  | [p] => serPair p
  | p :: q :: rest => serPair p ++ ',' :: ' ' :: serList (q :: rest)

/-- `json.dumps` rendering of the full sorted tuple list. -/
def serParams (l : List (String × PVal)) : List Char :=
  '[' :: serList l ++ [']']

/-- The serialized pair-list body with its leading separator when nonempty. -/
def serTail (l : List (String × PVal)) : List Char :=
  match l with
  | [] => []
  | _ :: _ => ',' :: ' ' :: serList l

/-- Code-point lexicographic comparison of character lists: exactly how
Python compares two strings. -/
def charListLe : List Char → List Char → Bool
  | [], _ => true
  | _ :: _, [] => false
  | a :: as, b :: bs =>
    if a.toNat < b.toNat then true
    else if b.toNat < a.toNat then false
    else charListLe as bs

/-- The key-ordering used by Python's `sorted` on `dict.items()`: with the
distinct keys of a dict, tuples compare by their first component, by code
points. -/
def keyLe (a b : String × PVal) : Prop := charListLe a.1.data b.1.data = true

instance : DecidableRel keyLe := fun a b =>
  inferInstanceAs (Decidable (charListLe a.1.data b.1.data = true))

instance : IsTotal (String × PVal) keyLe := by
  constructor
  intro a b
  show charListLe a.1.data b.1.data = true ∨ charListLe b.1.data a.1.data = true
  generalize a.1.data = x
  generalize b.1.data = y
  induction x generalizing y with
  | nil => left; rfl
  | cons c cs ih =>
    cases y with
    | nil => right; rfl
    | cons d ds =>
      by_cases hcd : c.toNat < d.toNat
      · left; simp [charListLe, hcd]
      · by_cases hdc : d.toNat < c.toNat
        · right; simp [charListLe, hdc]
        · rcases ih ds with h | h
          · left; simp [charListLe, hcd, hdc, h]
          · right; simp [charListLe, hcd, hdc, h]

instance : IsTrans (String × PVal) keyLe := by
  constructor
  intro a b c hab hbc
  show charListLe a.1.data c.1.data = true
  replace hab : charListLe a.1.data b.1.data = true := hab
  replace hbc : charListLe b.1.data c.1.data = true := hbc
  generalize a.1.data = x at hab ⊢
  generalize b.1.data = y at hab hbc
  generalize c.1.data = z at hbc ⊢
  induction x generalizing y z with
  | nil => rfl
  | cons u us ih =>
    cases y with
    | nil => simp [charListLe] at hab
    | cons v vs =>
      cases z with
      | nil => simp [charListLe] at hbc
      | cons w ws =>
        simp only [charListLe] at hab hbc ⊢
        by_cases hvw : v.toNat < w.toNat
        · by_cases huv : u.toNat < v.toNat
          · simp [show u.toNat < w.toNat by omega]
          · by_cases hvu : v.toNat < u.toNat
            · simp [huv, hvu] at hab
            · simp [show u.toNat < w.toNat by omega]
        · by_cases hwv : w.toNat < v.toNat
          · simp [hvw, hwv] at hbc
          · by_cases huv : u.toNat < v.toNat
            · simp [show u.toNat < w.toNat by omega]
            · by_cases hvu : v.toNat < u.toNat
              · simp [huv, hvu] at hab
              · simp [huv, hvu] at hab
                simp [hvw, hwv] at hbc
                simp [show ¬ u.toNat < w.toNat by omega, show ¬ w.toNat < u.toNat by omega]
                exact ih vs hab ws hbc

/-- `sorted(params.items())`: a stable sort of the pairs by key. -/
def sortPairs (l : List (String × PVal)) : List (String × PVal) :=
  List.insertionSort keyLe l

/-- The canonical serialized form `json.dumps(sorted(params.items()))`. -/
def canonical (params : List (String × PVal)) : List Char :=
  serParams (sortPairs params)

/-- UTF-8 bytes of one character. -/
def utf8Char (c : Char) : List Nat :=
  let n := c.toNat
  if n < 128 then [n]
  else if n < 2048 then [192 + n / 64, 128 + n % 64]
  else if n < 65536 then [224 + n / 4096, 128 + n / 64 % 64, 128 + n % 64]
  else [240 + n / 262144, 128 + n / 4096 % 64, 128 + n / 64 % 64, 128 + n % 64]

/-- `str.encode()`: the UTF-8 bytes of a string. -/
def utf8Bytes (s : String) : List Nat :=
  s.data.foldr (fun c acc => utf8Char c ++ acc) []

/-- `CacheService._generate_key`: sort the parameter pairs, serialize them as
JSON, hash with MD5, and append the hex digest to the namespace. -/
def generate_key (ns : String) (params : List (String × PVal)) : String :=
  let params_str : String := ⟨canonical params⟩
  let params_hash := Md5.hexdigest (utf8Bytes params_str)
  ns ++ ":" ++ params_hash

/-- Serialized values whose first characters differ. -/
def serHeadNe (v v' : PVal) : Prop :=
  ∃ c t c' t', serVal v = c :: t ∧ serVal v' = c' :: t' ∧ c ≠ c'

end CacheKey

/-! ## Cache store operations (`CacheService`, cache.py lines 38-75)

Each operation is embedded as a total function over the outcome of its calls
into the Redis backend and the JSON (de)serializer: a `BackendRes`/`Except`
argument stands for "the library call returned this value or raised this
error".  The Python `try/except Exception` blocks become the final `match`
that maps every error outcome to the fail-open result. -/

namespace Cache

/-- The outcome of one call into the cache backend: a returned value, or a
raised exception (connection failure, timeout, ...). -/
inductive BackendRes (α : Type) where
  | ok : α → BackendRes α
  | err : String → BackendRes α

/-- The `try` block of `CacheService.get`: fetch the raw value; a present,
truthy payload is decoded by `json.loads` (`loads`), whose own failure
propagates as an exception. -/
def try_get_body {α : Type} (redis_get : BackendRes (Option String))
    (loads : String → Except String α) : Except String (Option α) :=
  match redis_get with
  | .err e => .error e
  | .ok none => .ok none
  | .ok (some v) => if v = "" then .ok none else (loads v).map some

/-- `CacheService.get`: `None` without a connection; otherwise run the `try`
block and turn any raised error into the miss result `None`. -/
def get {α : Type} (connected : Bool) (redis_get : BackendRes (Option String))
    (loads : String → Except String α) : Option α :=
  if !connected then none
  else
    match try_get_body redis_get loads with
    | .ok r => r
    | .error _ => none

/-- `CacheService.set`: `False` without a connection; `json.dumps` (`dumps`)
or `redis.setex` raising yields `False`; success yields `True`. -/
def set (connected : Bool) (dumps : Except String String)
    (redis_setex : String → BackendRes Unit) : Bool :=
  if !connected then false
  else
    match dumps with
    | .error _ => false
    | .ok s =>
      match redis_setex s with
      | .ok _ => true
      | .err _ => false

/-- `CacheService.delete`: `False` without a connection; `redis.delete`
raising yields `False`; success yields `True`. -/
def delete (connected : Bool) (redis_del : BackendRes Nat) : Bool :=
  if !connected then false
  else
    match redis_del with
    | .ok _ => true
    | .err _ => false

end Cache

/-! ## The catalog data model and query layer
(`models/product.py`, `services/product_service.py`)

The persistent store is a `List Product`; one row per item.  SQL `Numeric`
columns are `ℚ`, timestamps are `Int` ticks, nullable columns are `Option`.
The service functions embed the cache-miss path of `ProductService` — the
pure query pipeline between store and response. -/

namespace Catalog

/-- The `products` table row (`app/models/product.py`). -/
structure Product where
  id : Int
  sku : String
  name : String
  description : Option String
  category : String
  brand : String
  price : ℚ
  stock_quantity : Int
  rating : ℚ
  reviews_count : Int
  created_at : Int
  updated_at : Int
deriving DecidableEq

/-- The mapped columns of `Product`, as resolvable sort targets. -/
inductive SortCol where
  | id
  | sku
  | name
  | description
  | category
  | brand
  | price
  | stock_quantity
  | rating
  | reviews_count
  | created_at
  | updated_at
deriving DecidableEq

/-- The mapped column attributes of the `Product` class, by attribute name. -/
def product_columns : List (String × SortCol) :=
  [("id", .id), ("sku", .sku), ("name", .name), ("description", .description),
   ("category", .category), ("brand", .brand), ("price", .price),
   ("stock_quantity", .stock_quantity), ("rating", .rating),
   ("reviews_count", .reviews_count), ("created_at", .created_at),
   ("updated_at", .updated_at)]

/-- The attribute names of the mapped columns. -/
def product_column_names : List String := product_columns.map Prod.fst

/-- The sort-field allow-list enumerated in the specification (§3):
id, name, price, rating, created-at. -/
def sort_allow_list : List String := ["id", "name", "price", "rating", "created_at"]

/-- Non-column attributes of the `Product` class that `getattr` also finds:
the ones declared in models/product.py (`__tablename__`, `__table_args__`,
`__repr__`) and representatives inherited from the declarative `Base`
(`metadata`, `registry`).  The inherited set is larger (dunder methods and
SQLAlchemy machinery), so the embedding treats the collection of non-column
attribute names parametrically; this list is a known lower bound used to
instantiate theorems. -/
def known_non_column_attrs : List String :=
  ["__tablename__", "__table_args__", "__repr__", "metadata", "registry"]

/-- product_service.py lines 78-82: `getattr(Product, sort_by, Product.id)`
followed by `.asc()`/`.desc()`.  `others` is the set of non-column attribute
names of the class (parametric; `known_non_column_attrs` lists known
members).  A string naming a mapped column resolves to that ordering column;
a string naming a non-column class attribute resolves to a non-column value
on which `.asc()`/`.desc()` raises `AttributeError` (`.error ()`, surfaced
as HTTP 500 by the handler in main.py); any other string takes `getattr`'s
default `Product.id`. -/
def resolveSortColumnE (others : List String) (sort_by : String) :
    Except Unit SortCol :=
  match product_columns.lookup sort_by with
  | some c => Except.ok c
  | none => if sort_by ∈ others then Except.error () else Except.ok .id

/-- The successful-resolution projection of line 78, used by the
response-shape model `get_products`: the ordering column obtained whenever
`.asc()`/`.desc()` does not raise.  The `AttributeError` path of a
non-column class attribute is modelled by `resolveSortColumnE`. -/
def resolveSortColumn (sort_by : String) : SortCol :=
  (product_columns.lookup sort_by).getD .id

/-- Ordering of two rows under one sort column (ascending); strings compare
by code points, a `NULL` description sorts first. -/
def colLe (c : SortCol) (p q : Product) : Bool :=
  match c with
  | .id => decide (p.id ≤ q.id)
  | .sku => CacheKey.charListLe p.sku.data q.sku.data
  | .name => CacheKey.charListLe p.name.data q.name.data
  | .description =>
    match p.description, q.description with
    | none, _ => true
    | some _, none => false
    | some a, some b => CacheKey.charListLe a.data b.data
  | .category => CacheKey.charListLe p.category.data q.category.data
  | .brand => CacheKey.charListLe p.brand.data q.brand.data
  | .price => decide (p.price ≤ q.price)
  | .stock_quantity => decide (p.stock_quantity ≤ q.stock_quantity)
  | .rating => decide (p.rating ≤ q.rating)
  | .reviews_count => decide (p.reviews_count ≤ q.reviews_count)
  | .created_at => decide (p.created_at ≤ q.created_at)
  | .updated_at => decide (p.updated_at ≤ q.updated_at)

/-- `query.order_by(sort_column.desc() / .asc())`: the store returns the rows
in the requested order (embedded as a stable sort of the row list). -/
def sort_products (c : SortCol) (descending : Bool) (l : List Product) : List Product :=
  if descending then List.insertionSort (fun p q => colLe c q p = true) l
  else List.insertionSort (fun p q => colLe c p q = true) l

/-- `str.lower()` (ASCII case folding, as applied to sort order and search). -/
def lowerChars (s : String) : List Char := s.data.map Char.toLower

/-- Does `needle` occur at the head of `hay`? -/
def startsWithChars : List Char → List Char → Bool
  | [], _ => true
  | _ :: _, [] => false
  | a :: as, b :: bs => a == b && startsWithChars as bs

/-- Does `needle` occur contiguously anywhere in `hay`? -/
def containsSub : List Char → List Char → Bool
  | [], needle => startsWithChars needle []
  | c :: t, needle => startsWithChars needle (c :: t) || containsSub t needle

/-- `column.ilike(f"%{term}%")`: case-insensitive substring containment.
(SQL `%`/`_` wildcards inside the term itself are not exercised by any claim
and are not modelled.) -/
def ilike (column term : String) : Bool :=
  containsSub (lowerChars column) (lowerChars term)

/-- The search disjunction of lines 66-70: name OR description OR sku; a
`NULL` description never matches. -/
def search_pred (term : String) (p : Product) : Bool :=
  ilike p.name term ||
    (match p.description with
     | some d => ilike d term
     | none => false) ||
    ilike p.sku term

/-- The conjunction of predicates accumulated by lines 55-70.  String filters
are applied only when truthy (`if category:` — absent or empty string adds no
predicate); price bounds are applied whenever present (`is not None`),
inclusively on both ends. -/
def matches_filters (category brand : Option String) (min_price max_price : Option ℚ)
    (search : Option String) (p : Product) : Bool :=
  (match category with
   | some c => if c = "" then true else p.category == c
   | none => true) &&
  (match brand with
   | some b => if b = "" then true else p.brand == b
   | none => true) &&
  (match min_price with
   | some m => decide (m ≤ p.price)
   | none => true) &&
  (match max_price with
   | some m => decide (p.price ≤ m)
   | none => true) &&
  (match search with
   | some t => if t = "" then true else search_pred t p
   | none => true)

/-- The list response schema (`ProductList`). -/
structure ProductList where
  data : List Product
  total : Nat
  page : Nat
  limit : Nat
  pages : Nat
deriving DecidableEq

/-- `ProductService.get_products`, cache-miss path (lines 52-102): filter,
count, sort, paginate, and assemble the response — the successful path, on
which sort resolution produced an ordering column.  The sort-crash path is
modelled by `get_productsE`. -/
def get_products (store : List Product) (page limit : Nat) (sort_by sort_order : String)
    (category brand : Option String) (min_price max_price : Option ℚ)
    (search : Option String) : ProductList :=
  let filtered := store.filter (matches_filters category brand min_price max_price search)
  let total := filtered.length
  let descending := lowerChars sort_order == "desc".data
  let sorted := sort_products (resolveSortColumn sort_by) descending filtered
  let offset := (page - 1) * limit
  let data := (sorted.drop offset).take limit
  let pages := (total + limit - 1) / limit
  ⟨data, total, page, limit, pages⟩

/-- `ProductService.get_products`, cache-miss path including the
sort-resolution error: sorting a non-column class attribute raises
`AttributeError` at line 80/82 and the request produces no response
(`.error ()`, an HTTP 500 at the boundary); otherwise the response of the
successful path is returned.  (In the source the count query of lines 72-75
has already executed when the crash occurs; no part of it is returned.) -/
def get_productsE (others : List String) (store : List Product) (page limit : Nat)
    (sort_by sort_order : String) (category brand : Option String)
    (min_price max_price : Option ℚ) (search : Option String) :
    Except Unit ProductList :=
  match resolveSortColumnE others sort_by with
  | .error e => .error e
  | .ok col =>
    let filtered := store.filter (matches_filters category brand min_price max_price search)
    let total := filtered.length
    let descending := lowerChars sort_order == "desc".data
    let sorted := sort_products col descending filtered
    let offset := (page - 1) * limit
    let data := (sorted.drop offset).take limit
    let pages := (total + limit - 1) / limit
    .ok ⟨data, total, page, limit, pages⟩

/-- A string query parameter, with `None` as the absence sentinel. -/
def optStrVal : Option String → CacheKey.PVal
  | none => .null
  | some s => .str s

/-- A float query parameter, with `None` as the absence sentinel. -/
def optNumVal : Option ℚ → CacheKey.PVal
  | none => .null
  | some q => .num q

/-- The `cache_params` dict of `get_products` (lines 34-44), as the
association list handed to `_generate_key("products:list", ...)`. -/
def list_cache_params (page limit : Nat) (sort_by sort_order : String)
    (category brand : Option String) (min_price max_price : Option ℚ)
    (search : Option String) : List (String × CacheKey.PVal) :=
  [("page", .int page), ("limit", .int limit), ("sort_by", .str sort_by),
   ("sort_order", .str sort_order), ("category", optStrVal category),
   ("brand", optStrVal brand), ("min_price", optNumVal min_price),
   ("max_price", optNumVal max_price), ("search", optStrVal search)]

/-- `ProductService.get_product`, cache-miss path (lines 122-140):
`scalar_one_or_none` on the id-equality query — the matching row or `None`.
(The detail schema carries exactly the model's fields, so the row itself is
the response.) -/
def get_product (store : List Product) (product_id : Int) : Option Product :=
  store.find? (fun p => p.id == product_id)

/-- An HTTP boundary outcome: a payload, or an `HTTPException` with a status
code and detail string. -/
inductive ApiResult (α : Type) where
  | ok : α → ApiResult α
  | httpError : Nat → String → ApiResult α
deriving DecidableEq

/-- The `GET /products/{product_id}` endpoint (endpoints/products.py lines
88-101): a missing row becomes `HTTPException(404, "Product not found")`. -/
def api_get_product (store : List Product) (product_id : Int) : ApiResult Product :=
  match get_product store product_id with
  | none => .httpError 404 "Product not found"
  | some p => .ok p

/-- The stats response schema (`ProductStats`). -/
structure ProductStats where
  total_products : Nat
  total_categories : Nat
  total_brands : Nat
  price_min : ℚ
  price_max : ℚ
  avg_rating : ℚ
  total_stock : Int
deriving DecidableEq

/-- SQL `MIN` over a column: `NULL` on the empty set. -/
def sqlMin (l : List ℚ) : Option ℚ :=
  match l with
  | [] => none
  | x :: xs => some (xs.foldl min x)

/-- SQL `MAX` over a column: `NULL` on the empty set. -/
def sqlMax (l : List ℚ) : Option ℚ :=
  match l with
  | [] => none
  | x :: xs => some (xs.foldl max x)

/-- SQL `AVG` over a column: `NULL` on the empty set. -/
def sqlAvg (l : List ℚ) : Option ℚ :=
  match l with
  | [] => none
  | _ :: _ => some (l.sum / (l.length : ℚ))

/-- SQL `SUM` over a column: `NULL` on the empty set. -/
def sqlSum (l : List Int) : Option Int :=
  match l with
  | [] => none
  | _ :: _ => some l.sum

/-- `ProductService.get_stats`, cache-miss path (lines 151-173): one
aggregate query; the `or Decimal(0)` / `or 0` defaults replace `NULL` (and
only reassert an already-zero value otherwise). -/
def get_stats (store : List Product) : ProductStats :=
  { total_products := store.length
    total_categories := (store.map Product.category).dedup.length
    total_brands := (store.map Product.brand).dedup.length
    price_min := (sqlMin (store.map Product.price)).getD 0
    price_max := (sqlMax (store.map Product.price)).getD 0
    avg_rating := (sqlAvg (store.map Product.rating)).getD 0
    total_stock := (sqlSum (store.map Product.stock_quantity)).getD 0 }

/-- A concrete catalog row used to instantiate proved theorems. -/
def sampleProduct : Product :=
  { id := 1, sku := "SKU-0001", name := "Widget", description := some "A sturdy widget",
    category := "Tools", brand := "Acme", price := 10, stock_quantity := 5,
    rating := 4, reviews_count := 2, created_at := 100, updated_at := 100 }

/-- A store of `n` distinct rows. -/
def mkStore (n : Nat) : List Product :=
  (List.range n).map fun i => { sampleProduct with id := i, sku := toString i }

end Catalog

/-! ## Theorems

From here on, only theorems: general lemmas about the embedding first, then
one theorem per specification claim (with a witness instance whenever the
claim's theorem carries hypotheses). -/

namespace Md5

theorem toLE_length (n val : Nat) : (toLE n val).length = n := by
  induction n generalizing val with
  | zero => rfl
  | succ k ih => simp [toLE, ih]

theorem md5Bytes_length (msg : List Nat) : (md5Bytes msg).length = 16 := by
  simp [md5Bytes, toLE_length]

theorem bytesToHex_length (l : List Nat) : (bytesToHex l).length = 2 * l.length := by
  induction l with
  | nil => rfl
  | cons b bs ih => simp [bytesToHex, ih]; ring

/-- Every MD5 hex digest is exactly 32 characters long. -/
theorem hexdigest_length (msg : List Nat) : (hexdigest msg).length = 32 := by
  show (bytesToHex (md5Bytes msg)).length = 32
  rw [bytesToHex_length, md5Bytes_length]

/-- RFC 1321 test vector: the digest of the empty message. -/
theorem md5_test_empty : hexdigest [] = "d41d8cd98f00b204e9800998ecf8427e" := by decide

/-- RFC 1321 test vector: the digest of "abc" (bytes 97, 98, 99). -/
theorem md5_test_abc : hexdigest [97, 98, 99] = "900150983cd24fb0d6963f7d28e17f72" := by decide

end Md5

namespace CacheKey

/-- Strings with equal character data are equal. -/
theorem string_data_inj {s t : String} (h : s.data = t.data) : s = t := by
  cases s; cases t; exact congrArg String.mk h

/-- Chars with equal code points are equal. -/
theorem char_eq_of_toNat_eq {a b : Char} (h : a.toNat = b.toNat) : a = b :=
  Char.ext_iff.mpr (UInt32.ext_iff.mpr h)

theorem charListLe_antisymm {x y : List Char} (hxy : charListLe x y = true)
    (hyx : charListLe y x = true) : x = y := by
  induction x generalizing y with
  | nil =>
    cases y with
    | nil => rfl
    | cons b bs => simp [charListLe] at hyx
  | cons a as ih =>
    cases y with
    | nil => simp [charListLe] at hxy
    | cons b bs =>
      simp only [charListLe] at hxy hyx
      by_cases hab : a.toNat < b.toNat
      · have hba : ¬ b.toNat < a.toNat := by omega
        simp [hab, hba] at hxy hyx
      · by_cases hba : b.toNat < a.toNat
        · simp [hab, hba] at hxy hyx
        · have : a = b := char_eq_of_toNat_eq (by omega)
          subst this
          simp [hab] at hxy hyx
          rw [ih hxy hyx]

theorem sortPairs_perm (l : List (String × PVal)) : (sortPairs l).Perm l :=
  List.perm_insertionSort keyLe l

theorem sortPairs_sorted (l : List (String × PVal)) : List.Sorted keyLe (sortPairs l) :=
  List.sorted_insertionSort keyLe l

/-- Two key-sorted pair lists that are permutations of each other and have
pairwise-distinct keys are equal: the canonical form is unique. -/
theorem sorted_perm_eq : ∀ {l₁ l₂ : List (String × PVal)}, l₁.Perm l₂ →
    List.Sorted keyLe l₁ → List.Sorted keyLe l₂ →
    (l₁.map Prod.fst).Nodup → l₁ = l₂ := by
  intro l₁
  induction l₁ with
  | nil => intro l₂ hp _ _ _; exact (hp.symm.eq_nil).symm
  | cons a t ih =>
    intro l₂ hp hs₁ hs₂ hnd
    cases l₂ with
    | nil => exact absurd hp.eq_nil (by simp)
    | cons b t₂ =>
      have hamem : a ∈ b :: t₂ := hp.subset (List.mem_cons_self a t)
      have hbmem : b ∈ a :: t := hp.symm.subset (List.mem_cons_self b t₂)
      have hab : a = b := by
        rcases List.mem_cons.mp hamem with h | hat₂
        · exact h
        rcases List.mem_cons.mp hbmem with h | hbt
        · exact h.symm
        have h₁ : keyLe a b := List.rel_of_sorted_cons hs₁ b hbt
        have h₂ : keyLe b a := List.rel_of_sorted_cons hs₂ a hat₂
        have hkey : a.1 = b.1 := string_data_inj (charListLe_antisymm h₁ h₂)
        have : a.1 ∉ t.map Prod.fst := by
          have := hnd
          simp only [List.map_cons, List.nodup_cons] at this
          exact this.1
        exact absurd (hkey ▸ List.mem_map_of_mem Prod.fst hbt) this
      subst hab
      have htp : t.Perm t₂ := hp.cons_inv
      have := ih htp hs₁.of_cons hs₂.of_cons
        (by simpa using (List.nodup_cons.mp (by simpa using hnd)).2)
      rw [this]

/-- `orderedInsert` by key places two pairs carrying the same key at the same
position, independently of their values. -/
theorem orderedInsert_key_split (k : String) (v v' : PVal) :
    ∀ l : List (String × PVal), ∃ l₁ l₂,
      List.orderedInsert keyLe (k, v) l = l₁ ++ (k, v) :: l₂ ∧
      List.orderedInsert keyLe (k, v') l = l₁ ++ (k, v') :: l₂ := by
  intro l
  induction l with
  | nil => exact ⟨[], [], rfl, rfl⟩
  | cons b t ih =>
    by_cases h : keyLe (k, v) b
    · have h' : keyLe (k, v') b := h
      refine ⟨[], b :: t, ?_, ?_⟩
      · simp [List.orderedInsert, if_pos h]
      · exact if_pos h'
    · have h' : ¬ keyLe (k, v') b := h
      obtain ⟨l₁, l₂, h1, h2⟩ := ih
      refine ⟨b :: l₁, l₂, ?_, ?_⟩
      · simp only [List.orderedInsert, if_neg h, h1, List.cons_append]
      · simp only [List.orderedInsert, if_neg h', h2, List.cons_append]

/-- Sorting a mapping that carries `(k, v)` and sorting the same mapping with
`(k, v')` instead yields lists that agree everywhere except at the slot of
key `k`. -/
theorem sortPairs_cons_key_split (k : String) (v v' : PVal)
    (P : List (String × PVal)) : ∃ l₁ l₂,
    sortPairs ((k, v) :: P) = l₁ ++ (k, v) :: l₂ ∧
    sortPairs ((k, v') :: P) = l₁ ++ (k, v') :: l₂ :=
  orderedInsert_key_split k v v' (sortPairs P)

/-- Two char lists sharing a prefix and then differing are distinct. -/
theorem append_cons_ne (p : List Char) {c c' : Char} (hcc : c ≠ c')
    (r r' : List Char) : p ++ c :: r ≠ p ++ c' :: r' := by
  intro h
  have := List.append_cancel_left h
  exact hcc (by injection this)

theorem serList_cons (p : String × PVal) (l : List (String × PVal)) :
    serList (p :: l) = serPair p ++ serTail l := by
  cases l <;> simp [serList, serTail]

/-- Replacing the value at the distinguished slot with one that serializes
differently changes the serialized body. -/
theorem serList_split_ne {k : String} {v v' : PVal} (hne : serHeadNe v v') :
    ∀ (l₁ l₂ : List (String × PVal)),
      serList (l₁ ++ (k, v) :: l₂) ≠ serList (l₁ ++ (k, v') :: l₂) := by
  obtain ⟨c, t, c', t', hv, hv', hcc⟩ := hne
  intro l₁
  induction l₁ with
  | nil =>
    intro l₂
    simp only [List.nil_append, serList_cons, serPair, serPairPre]
    rw [hv, hv']
    simp only [List.append_assoc, List.cons_append, List.nil_append]
    exact fun h => append_cons_ne ('[' :: '"' :: escString k ++ ['"', ',', ' ']) hcc _ _
      (by simpa [List.append_assoc] using h)
  | cons b l₁ ih =>
    intro l₂
    have hsh : ∀ w : PVal, serTail (l₁ ++ (k, w) :: l₂) =
        ',' :: ' ' :: serList (l₁ ++ (k, w) :: l₂) := by
      intro w
      cases hl : l₁ ++ (k, w) :: l₂ with
      | nil => exact absurd (List.append_eq_nil.mp hl).2 (by simp)
      | cons x xs => rw [← hl]; rw [hl]; rfl
    rw [List.cons_append, List.cons_append, serList_cons, serList_cons, hsh v, hsh v']
    intro h
    have h₂ := List.append_cancel_left h
    have h₃ : serList (l₁ ++ (k, v) :: l₂) = serList (l₁ ++ (k, v') :: l₂) := by
      injection h₂ with _ h₂a
      injection h₂a
    exact ih l₂ h₃

/-- The canonical serialized form distinguishes a mapping carrying `(k, v)`
from the same mapping carrying `(k, v')`, whenever the two values serialize
with different first characters. -/
theorem canonical_replace_ne {v v' : PVal} (hne : serHeadNe v v')
    (k : String) (P : List (String × PVal)) :
    canonical ((k, v) :: P) ≠ canonical ((k, v') :: P) := by
  obtain ⟨l₁, l₂, h1, h2⟩ := sortPairs_cons_key_split k v v' P
  unfold canonical
  rw [h1, h2]
  intro h
  have hbody : serList (l₁ ++ (k, v) :: l₂) ++ [']'] =
      serList (l₁ ++ (k, v') :: l₂) ++ [']'] := by
    simpa [serParams] using h
  exact serList_split_ne hne l₁ l₂ (List.append_cancel_right hbody)

/-- The absence sentinel (`None`/`null`) serializes with a different leading
character than the empty string. -/
theorem serHeadNe_null_emptyStr : serHeadNe (PVal.str "") PVal.null :=
  ⟨'"', ['"'], 'n', ['u', 'l', 'l'], rfl, rfl, by decide⟩

/-- The absence sentinel (`None`/`null`) serializes with a different leading
character than the integer zero. -/
theorem serHeadNe_null_zero : serHeadNe (PVal.int 0) PVal.null :=
  ⟨'0', [], 'n', ['u', 'l', 'l'], rfl, rfl, by decide⟩

/-- Sorting a permutation of a mapping with distinct keys canonicalizes to
the same list, hence the same serialized form. -/
theorem canonical_of_perm {P Q : List (String × PVal)} (h : P.Perm Q)
    (hnd : (P.map Prod.fst).Nodup) : canonical P = canonical Q := by
  have hsorted : sortPairs P = sortPairs Q := by
    apply sorted_perm_eq
    · exact (sortPairs_perm P).trans (h.trans (sortPairs_perm Q).symm)
    · exact sortPairs_sorted P
    · exact sortPairs_sorted Q
    · exact (((sortPairs_perm P).map Prod.fst).nodup_iff).mpr hnd
  unfold canonical
  rw [hsorted]

/-- End-to-end sanity check of the serializer and digest against CPython:
`_generate_key("products:list", {"category": ""})`. -/
theorem generate_key_cpython_check₁ :
    generate_key "products:list" [("category", .str "")] =
      "products:list:0f0372e8e57a553b6e88cd1010b9fee0" := by decide

/-- End-to-end sanity check against CPython for a mapping with null, int,
string, and float values in insertion (non-sorted) order. -/
theorem generate_key_cpython_check₂ :
    generate_key "products:list"
      [("page", .int 1), ("limit", .int 50), ("sort_by", .str "id"),
       ("sort_order", .str "asc"), ("category", .str ""), ("brand", .null),
       ("min_price", .num (Rat.mk' 21 2)), ("max_price", .null), ("search", .null)] =
      "products:list:27b638f3d08bc2901cb0773e470613af" := by decide

end CacheKey

namespace Catalog

/-- `List.lookup` misses exactly when the key is absent. -/
theorem lookup_eq_none_of_not_mem {l : List (String × SortCol)} {s : String}
    (h : s ∉ l.map Prod.fst) : l.lookup s = none := by
  induction l with
  | nil => rfl
  | cons a t ih =>
    simp only [List.map_cons, List.mem_cons] at h
    push_neg at h
    obtain ⟨h1, h2⟩ := h
    cases a with
    | mk k v =>
      have hne : (s == k) = false := beq_eq_false_iff_ne.mpr h1
      simp only [List.lookup, hne]
      exact ih h2

/-- `find?` on an id-equality predicate returns the matching row when the
store's ids are pairwise distinct. -/
theorem find_id_unique {store : List Product} {pid : Int} {p : Product}
    (hmem : p ∈ store) (hid : p.id = pid)
    (hnd : (store.map Product.id).Nodup) :
    store.find? (fun q => q.id == pid) = some p := by
  induction store with
  | nil => cases hmem
  | cons a t ih =>
    rcases List.mem_cons.mp hmem with rfl | hmem'
    · have : (p.id == pid) = true := beq_iff_eq.mpr hid
      simp [List.find?, this]
    · have hnd' : a.id ∉ t.map Product.id ∧ (t.map Product.id).Nodup := by
        rw [List.map_cons, List.nodup_cons] at hnd
        exact hnd
      have hane : (a.id == pid) = false := by
        refine beq_eq_false_iff_ne.mpr ?_
        intro h
        have : a.id ∈ t.map Product.id := by
          rw [h, ← hid]
          exact List.mem_map_of_mem Product.id hmem'
        exact hnd'.1 this
      simp only [List.find?, hane]
      exact ih hmem' hnd'.2

/-- Sorting never changes how many rows there are. -/
theorem sort_products_length (c : SortCol) (descending : Bool) (l : List Product) :
    (sort_products c descending l).length = l.length := by
  unfold sort_products
  split
  · exact (List.perm_insertionSort _ l).length_eq
  · exact (List.perm_insertionSort _ l).length_eq

/-- When `getattr`-resolution succeeds, the successful-path projection
`resolveSortColumn` computes the same ordering column. -/
theorem resolveSortColumnE_ok {others : List String} {s : String} {col : SortCol}
    (h : resolveSortColumnE others s = Except.ok col) :
    resolveSortColumn s = col := by
  unfold resolveSortColumnE at h
  unfold resolveSortColumn
  cases hl : product_columns.lookup s with
  | some c =>
    rw [hl] at h
    injection h
  | none =>
    rw [hl] at h
    by_cases hm : s ∈ others
    · rw [if_pos hm] at h
      exact Except.noConfusion h
    · rw [if_neg hm] at h
      injection h

/-- When sort resolution succeeds, `get_products` is exactly the returned
response of the full (error-aware) pipeline. -/
theorem get_productsE_eq_ok {others : List String} {sort_by : String} {col : SortCol}
    (hres : resolveSortColumnE others sort_by = Except.ok col)
    (store : List Product) (page limit : Nat) (sort_order : String)
    (category brand : Option String) (min_price max_price : Option ℚ)
    (search : Option String) :
    get_productsE others store page limit sort_by sort_order category brand
        min_price max_price search =
      Except.ok (get_products store page limit sort_by sort_order category brand
        min_price max_price search) := by
  unfold get_productsE get_products
  rw [hres, resolveSortColumnE_ok hres]

/-- Arithmetic of `pages = (total + limit - 1) / limit`: it is the ceiling of
`total / limit` (least number of `limit`-sized pages covering `total`), and it
is `0` exactly on an empty result. -/
theorem pages_bounds (t l : Nat) (hl : 1 ≤ l) :
    t ≤ ((t + l - 1) / l) * l ∧
    (0 < t → ((t + l - 1) / l - 1) * l < t) ∧
    (t = 0 → (t + l - 1) / l = 0) := by
  have h := Nat.div_add_mod (t + l - 1) l
  have hr : (t + l - 1) % l < l := Nat.mod_lt _ (by omega)
  refine ⟨?_, ?_, ?_⟩
  · rw [Nat.mul_comm]
    generalize l * ((t + l - 1) / l) = m at h ⊢
    omega
  · intro ht
    have heq : ((t + l - 1) / l - 1) * l = l * ((t + l - 1) / l) - l := by
      rw [Nat.sub_one_mul, Nat.mul_comm]
    rw [heq]
    generalize l * ((t + l - 1) / l) = m at h ⊢
    omega
  · intro ht
    subst ht
    exact Nat.div_eq_of_lt (by omega)

end Catalog

/-! ## The claims -/

/-- C1, counterexample.  The claim says: for every string not in the
allow-list {id, name, price, rating, created-at}, the resulting item query
orders by the default field `id`.  This fails on the code: resolution is
`getattr(Product, sort_by, Product.id)`, so `"stock_quantity"` — a mapped
column outside the allow-list — is used as the ordering column, not the
default `id`. -/
theorem C1_allowlist_counterexample :
    "stock_quantity" ∉ Catalog.sort_allow_list ∧
    Catalog.resolveSortColumn "stock_quantity" ≠ Catalog.SortCol.id := by
  constructor
  · decide
  · decide

/-- C1, amended.  Sort-field resolution is `getattr` attribute lookup with
default `Product.id`, not the allow-list: a string naming a mapped column —
including the seven outside the allow-list — orders by that column; a string
naming no attribute of the model class at all takes `getattr`'s default and
orders by `id`, never reaching the store verbatim; and a string naming a
non-column class attribute (e.g. `__tablename__`, `metadata`) raises
`AttributeError` at `.asc()`/`.desc()` (an HTTP 500) instead of reaching the
store's ordering clause.  `others` is the (parametric) set of non-column
class attribute names. -/
theorem C1_resolve_fallback (others : List String) (s : String) :
    (s ∉ Catalog.product_column_names → s ∉ others →
      Catalog.resolveSortColumnE others s = Except.ok Catalog.SortCol.id) ∧
    (∀ c, Catalog.product_columns.lookup s = some c →
      Catalog.resolveSortColumnE others s = Except.ok c) ∧
    (s ∉ Catalog.product_column_names → s ∈ others →
      Catalog.resolveSortColumnE others s = Except.error ()) := by
  unfold Catalog.resolveSortColumnE
  refine ⟨?_, ?_, ?_⟩
  · intro hnc ho
    rw [Catalog.lookup_eq_none_of_not_mem hnc]
    simp [ho]
  · intro c hc
    rw [hc]
  · intro hnc ho
    rw [Catalog.lookup_eq_none_of_not_mem hnc]
    simp [ho]

/-- C1 witness: the spec's injection probe `"id; DROP TABLE items"` names no
attribute and resolves to the default field `id`; the mapped column
`stock_quantity` resolves to itself; the non-column class attribute
`__tablename__` takes the `AttributeError` path. -/
theorem C1_resolve_fallback_witness :
    "id; DROP TABLE items" ∉ Catalog.product_column_names ∧
    "id; DROP TABLE items" ∉ Catalog.known_non_column_attrs ∧
    Catalog.resolveSortColumnE Catalog.known_non_column_attrs "id; DROP TABLE items" =
      Except.ok Catalog.SortCol.id ∧
    Catalog.resolveSortColumnE Catalog.known_non_column_attrs "stock_quantity" =
      Except.ok Catalog.SortCol.stock_quantity ∧
    Catalog.resolveSortColumnE Catalog.known_non_column_attrs "__tablename__" =
      Except.error () :=
  ⟨by decide, by decide,
   (C1_resolve_fallback Catalog.known_non_column_attrs "id; DROP TABLE items").1
     (by decide) (by decide),
   (C1_resolve_fallback Catalog.known_non_column_attrs "stock_quantity").2.1
     Catalog.SortCol.stock_quantity (by decide),
   (C1_resolve_fallback Catalog.known_non_column_attrs "__tablename__").2.2
     (by decide) (by decide)⟩

/-- C2: every cache-backend error is caught inside the cache layer — a raised
error during `get` yields the miss result `None` (as does an undecodable
payload), a serialization failure or raised error during `set` yields the
failure flag `False`, and a raised error during `delete` yields `False`; all
three operations are total (no error escapes to the caller). -/
theorem C2_fail_open {α : Type} (conn : Bool) (e v : String)
    (loads : String → Except String α)
    (redis_setex : String → Cache.BackendRes Unit) :
    Cache.get conn (.err e) loads = none ∧
    (∀ e', loads v = .error e' → Cache.get conn (.ok (some v)) loads = none) ∧
    Cache.set conn (.error e) redis_setex = false ∧
    (∀ s, redis_setex s = .err e → Cache.set conn (.ok s) redis_setex = false) ∧
    Cache.delete conn (.err e) = false := by
  refine ⟨?_, ?_, ?_, ?_, ?_⟩
  · cases conn <;> rfl
  · intro e' h
    cases conn
    · rfl
    · by_cases hv : v = "" <;>
        simp [Cache.get, Cache.try_get_body, hv, h, Except.map]
  · cases conn <;> rfl
  · intro s h
    cases conn
    · rfl
    · simp [Cache.set, h]
  · cases conn <;> rfl

/-- C2 witness: concrete backend failures — a connection error on `get`, an
undecodable cached payload, a serialization failure and a backend error on
`set`, and a backend error on `delete` — all resolve to miss/`false`. -/
theorem C2_fail_open_witness :
    Cache.get true (.err "connection refused") (fun s => Except.ok s.length) = none ∧
    Cache.get true (.ok (some "not json")) (fun _ => (Except.error "decode error" : Except String Nat)) = none ∧
    Cache.set true (.error "not serializable") (fun _ => .ok ()) = false ∧
    Cache.set true (.ok "payload") (fun _ => .err "timeout") = false ∧
    Cache.delete true (.err "timeout") = false := by
  refine ⟨?_, ?_, ?_, ?_, ?_⟩
  · exact (C2_fail_open true "connection refused" "x" (fun s => Except.ok s.length)
      (fun _ => .ok ())).1
  · exact (C2_fail_open true "e" "not json" (fun _ => (Except.error "decode error" : Except String Nat))
      (fun _ => .ok ())).2.1 "decode error" rfl
  · exact (C2_fail_open (α := Nat) true "not serializable" "x" (fun _ => .error "")
      (fun _ => .ok ())).2.2.1
  · exact (C2_fail_open (α := Nat) true "timeout" "x" (fun _ => .error "")
      (fun _ => .err "timeout")).2.2.2.1 "payload" rfl
  · exact (C2_fail_open (α := Nat) true "timeout" "x" (fun _ => .error "")
      (fun _ => .ok ())).2.2.2.2

/-- C8: on an empty catalog the aggregate-stats operation returns a record
whose every field is zero or zero-decimal (total_products = 0,
total_categories = 0, total_brands = 0, price_min = 0, price_max = 0,
avg_rating = 0, total_stock = 0) — the `Option`-valued SQL aggregates are
defaulted before they reach the response, so no field is null and no error is
raised (the operation is total). -/
theorem C8_empty_stats :
    Catalog.get_stats [] =
      { total_products := 0, total_categories := 0, total_brands := 0,
        price_min := 0, price_max := 0, avg_rating := 0, total_stock := 0 } := by
  rfl

/-- C9: for an id with no matching row, detail lookup returns the explicit
absent value `none` (not an exception) and the boundary surfaces it as the
client-visible 404 "Product not found", which is distinguishable from a
server failure (status 500); for an id with a matching row (ids being unique
in the store), lookup returns that full row and the boundary returns it. -/
theorem C9_not_found (store : List Catalog.Product) (pid : Int) :
    ((∀ p ∈ store, p.id ≠ pid) →
      Catalog.get_product store pid = none ∧
      Catalog.api_get_product store pid =
        Catalog.ApiResult.httpError 404 "Product not found") ∧
    (∀ p ∈ store, p.id = pid → (store.map Catalog.Product.id).Nodup →
      Catalog.get_product store pid = some p ∧
      Catalog.api_get_product store pid = Catalog.ApiResult.ok p) ∧
    (∀ d : String,
      (Catalog.ApiResult.httpError 404 "Product not found" :
          Catalog.ApiResult Catalog.Product) ≠ Catalog.ApiResult.httpError 500 d) := by
  refine ⟨?_, ?_, ?_⟩
  · intro hno
    have hnone : Catalog.get_product store pid = none := by
      apply List.find?_eq_none.mpr
      intro p hp
      simpa using hno p hp
    exact ⟨hnone, by simp [Catalog.api_get_product, hnone]⟩
  · intro p hp hid hnd
    have hsome : Catalog.get_product store pid = some p :=
      Catalog.find_id_unique hp hid hnd
    exact ⟨hsome, by simp [Catalog.api_get_product, hsome]⟩
  · intro d h
    injection h with h4 _
    exact absurd h4 (by decide)

/-- C9 witness: in a one-row store, id 2 misses (404, not a server failure)
and id 1 returns the full row. -/
theorem C9_not_found_witness :
    (Catalog.get_product [Catalog.sampleProduct] 2 = none ∧
      Catalog.api_get_product [Catalog.sampleProduct] 2 =
        Catalog.ApiResult.httpError 404 "Product not found") ∧
    (Catalog.get_product [Catalog.sampleProduct] 1 = some Catalog.sampleProduct ∧
      Catalog.api_get_product [Catalog.sampleProduct] 1 =
        Catalog.ApiResult.ok Catalog.sampleProduct) := by
  constructor
  · exact (C9_not_found [Catalog.sampleProduct] 2).1 (by decide)
  · exact (C9_not_found [Catalog.sampleProduct] 1).2.1 Catalog.sampleProduct
      (List.mem_cons_self _ _) (by decide) (by decide)

/-- C3: key derivation canonicalizes by sorting on parameter name before
serializing and hashing — mappings holding the same key/value pairs in any
insertion order derive the same key — and the derived key is the namespace
prefix, a colon, and a fixed-length (32 hex character) digest. -/
theorem C3_canonical_key (ns : String) (P₁ P₂ : List (String × CacheKey.PVal))
    (hperm : P₁.Perm P₂) (hnd : (P₁.map Prod.fst).Nodup) :
    CacheKey.generate_key ns P₁ = CacheKey.generate_key ns P₂ ∧
    ∃ digest : String,
      CacheKey.generate_key ns P₁ = ns ++ ":" ++ digest ∧ digest.length = 32 := by
  constructor
  · show ns ++ ":" ++ Md5.hexdigest (CacheKey.utf8Bytes ⟨CacheKey.canonical P₁⟩) =
      ns ++ ":" ++ Md5.hexdigest (CacheKey.utf8Bytes ⟨CacheKey.canonical P₂⟩)
    rw [CacheKey.canonical_of_perm hperm hnd]
  · exact ⟨_, rfl, Md5.hexdigest_length _⟩

/-- C3 witness: the two insertion orders of {"sort_by": "id", "page": 1}
derive one and the same key. -/
theorem C3_canonical_key_witness :
    ([("sort_by", CacheKey.PVal.str "id"), ("page", CacheKey.PVal.int 1)].map
        Prod.fst).Nodup ∧
    CacheKey.generate_key "products:list"
        [("sort_by", CacheKey.PVal.str "id"), ("page", CacheKey.PVal.int 1)] =
      CacheKey.generate_key "products:list"
        [("page", CacheKey.PVal.int 1), ("sort_by", CacheKey.PVal.str "id")] :=
  ⟨by decide,
    (C3_canonical_key "products:list" _ _ (List.Perm.swap _ _ _) (by decide)).1⟩

/-- C4: a mapping in which an optional field is present-but-empty and the
same mapping with that field absent (the `None` sentinel) serialize to
different canonical forms — `null` is distinct from `""` and from `0` — and
therefore derive different cache keys (shown on the digests of a concrete
pair; the spec accepts digest collisions as an unhandled risk, §4.1). -/
theorem C4_empty_vs_absent :
    (∀ (k : String) (P : List (String × CacheKey.PVal)),
      CacheKey.canonical ((k, CacheKey.PVal.str "") :: P) ≠
        CacheKey.canonical ((k, CacheKey.PVal.null) :: P) ∧
      CacheKey.canonical ((k, CacheKey.PVal.int 0) :: P) ≠
        CacheKey.canonical ((k, CacheKey.PVal.null) :: P)) ∧
    CacheKey.generate_key "products:list" [("category", CacheKey.PVal.str "")] ≠
      CacheKey.generate_key "products:list" [("category", CacheKey.PVal.null)] := by
  refine ⟨fun k P => ⟨?_, ?_⟩, ?_⟩
  · exact CacheKey.canonical_replace_ne CacheKey.serHeadNe_null_emptyStr k P
  · exact CacheKey.canonical_replace_ne CacheKey.serHeadNe_null_zero k P
  · decide

/-- Replacing the value at key `k` in the middle of a mapping with distinct
keys by one that serializes differently changes the canonical form. -/
theorem CacheKey.canonical_middle_replace_ne {v v' : CacheKey.PVal}
    (hne : CacheKey.serHeadNe v v') (k : String)
    (l₁ l₂ : List (String × CacheKey.PVal))
    (hnd : ((l₁ ++ (k, v) :: l₂).map Prod.fst).Nodup) :
    CacheKey.canonical (l₁ ++ (k, v) :: l₂) ≠
      CacheKey.canonical (l₁ ++ (k, v') :: l₂) := by
  have hnd' : ((l₁ ++ (k, v') :: l₂).map Prod.fst).Nodup := by
    have heq : (l₁ ++ (k, v') :: l₂).map Prod.fst =
        (l₁ ++ (k, v) :: l₂).map Prod.fst := by simp
    rw [heq]
    exact hnd
  rw [CacheKey.canonical_of_perm (List.perm_middle) hnd,
    CacheKey.canonical_of_perm (List.perm_middle) hnd']
  exact CacheKey.canonical_replace_ne hne k (l₁ ++ l₂)

/-- C6: the reported total is the number of store rows satisfying the filter
predicates alone, and it is invariant under page, limit, sort field, and sort
direction — the count query shares the predicate set but none of the
sort/pagination clauses. -/
theorem C6_total_count (store : List Catalog.Product) (page limit : Nat)
    (sort_by sort_order : String) (category brand : Option String)
    (min_price max_price : Option ℚ) (search : Option String) :
    (Catalog.get_products store page limit sort_by sort_order category brand
        min_price max_price search).total =
      (store.filter
        (Catalog.matches_filters category brand min_price max_price search)).length ∧
    ∀ page' limit' sort_by' sort_order',
      (Catalog.get_products store page' limit' sort_by' sort_order' category brand
          min_price max_price search).total =
        (Catalog.get_products store page limit sort_by sort_order category brand
            min_price max_price search).total :=
  ⟨rfl, fun _ _ _ _ => rfl⟩

/-- C5, counterexample.  The claim quantifies over every list query, but a
query whose sort field names a non-column class attribute (here
`__tablename__`, declared in models/product.py) raises `AttributeError`
before pagination ever runs: page 6 of a 237-row store — a page beyond the
last, with page ≥ 1 and 1 ≤ limit ≤ 100 — returns no sequence at all, an
error rather than an empty page. -/
theorem C5_sort_crash_counterexample :
    Catalog.get_productsE Catalog.known_non_column_attrs (Catalog.mkStore 237) 6 50
        "__tablename__" "asc" none none none none none = Except.error () ∧
    (1 ≤ 6 ∧ 1 ≤ 50 ∧ 50 ≤ 100) := by
  constructor
  · rfl
  · decide

/-- C5, amended.  For every list query with page ≥ 1 and 1 ≤ limit ≤ 100
whose sort field resolves to an ordering column (it names no non-column
class attribute; otherwise the request fails with `AttributeError` before
pagination), the response is returned without error; its result window is
the slice of the ordered filtered rows starting at offset (page − 1) × limit
with at most `limit` rows; `pages` is the ceiling of total / limit
(`pages` = 0 when total = 0); and in the spec's instance total = 237,
limit = 50: pages = 5, page 5 holds exactly 37 rows, and page 6 is an empty
sequence with no error. -/
theorem C5_pagination (others : List String) (store : List Catalog.Product)
    (page limit : Nat)
    (sort_by sort_order : String) (category brand : Option String)
    (min_price max_price : Option ℚ) (search : Option String)
    (col : Catalog.SortCol)
    (hres : Catalog.resolveSortColumnE others sort_by = Except.ok col)
    (r : Catalog.ProductList)
    (hr : r = Catalog.get_products store page limit sort_by sort_order category
      brand min_price max_price search)
    (hp : 1 ≤ page) (hl : 1 ≤ limit) (hl100 : limit ≤ 100) :
    Catalog.get_productsE others store page limit sort_by sort_order category brand
        min_price max_price search = Except.ok r ∧
    r.data = ((Catalog.sort_products (Catalog.resolveSortColumn sort_by)
        (Catalog.lowerChars sort_order == "desc".data)
        (store.filter
          (Catalog.matches_filters category brand min_price max_price search))).drop
            ((page - 1) * limit)).take limit ∧
    r.data.length ≤ limit ∧
    r.total ≤ r.pages * limit ∧
    (0 < r.total → (r.pages - 1) * limit < r.total) ∧
    (r.total = 0 → r.pages = 0) ∧
    (r.total = 237 ∧ limit = 50 →
      r.pages = 5 ∧ (page = 5 → r.data.length = 37) ∧ (page = 6 → r.data = [])) := by
  subst hr
  refine ⟨Catalog.get_productsE_eq_ok hres store page limit sort_order category brand
    min_price max_price search, rfl, ?_, ?_, ?_, ?_, ?_⟩
  · show (List.take limit _).length ≤ limit
    rw [List.length_take]
    omega
  · exact (Catalog.pages_bounds
      (store.filter (Catalog.matches_filters category brand min_price max_price search)).length
      limit hl).1
  · exact (Catalog.pages_bounds
      (store.filter (Catalog.matches_filters category brand min_price max_price search)).length
      limit hl).2.1
  · exact (Catalog.pages_bounds
      (store.filter (Catalog.matches_filters category brand min_price max_price search)).length
      limit hl).2.2
  · rintro ⟨ht, rfl⟩
    have ht' : (store.filter
        (Catalog.matches_filters category brand min_price max_price search)).length = 237 := ht
    refine ⟨?_, ?_, ?_⟩
    · show ((store.filter
          (Catalog.matches_filters category brand min_price max_price search)).length
            + 50 - 1) / 50 = 5
      rw [ht']
    · intro hp5
      subst hp5
      show (List.take 50 ((Catalog.sort_products (Catalog.resolveSortColumn sort_by)
          (Catalog.lowerChars sort_order == "desc".data)
          (store.filter
            (Catalog.matches_filters category brand min_price max_price search))).drop
              ((5 - 1) * 50))).length = 37
      rw [List.length_take, List.length_drop, Catalog.sort_products_length, ht']
      omega
    · intro hp6
      subst hp6
      show List.take 50 ((Catalog.sort_products (Catalog.resolveSortColumn sort_by)
          (Catalog.lowerChars sort_order == "desc".data)
          (store.filter
            (Catalog.matches_filters category brand min_price max_price search))).drop
              ((6 - 1) * 50)) = []
      have hlen : (Catalog.sort_products (Catalog.resolveSortColumn sort_by)
          (Catalog.lowerChars sort_order == "desc".data)
          (store.filter
            (Catalog.matches_filters category brand min_price max_price search))).length ≤
          (6 - 1) * 50 := by
        rw [Catalog.sort_products_length, ht']
        omega
      rw [List.drop_eq_nil_of_le hlen, List.take_nil]

/-- C5 witness: a 237-row store with limit 50 and a resolving sort field —
the response is returned without error, page 5 has exactly 37 rows, page 6
is empty, and pages = 5. -/
theorem C5_pagination_witness :
    Catalog.get_productsE Catalog.known_non_column_attrs (Catalog.mkStore 237) 5 50
        "id" "asc" none none none none none =
      Except.ok (Catalog.get_products (Catalog.mkStore 237) 5 50 "id" "asc" none
        none none none none) ∧
    (Catalog.get_products (Catalog.mkStore 237) 5 50 "id" "asc" none none none none
        none).data.length = 37 ∧
    (Catalog.get_products (Catalog.mkStore 237) 6 50 "id" "asc" none none none none
        none).data = [] ∧
    (Catalog.get_products (Catalog.mkStore 237) 5 50 "id" "asc" none none none none
        none).pages = 5 := by
  have ht5 : (Catalog.get_products (Catalog.mkStore 237) 5 50 "id" "asc" none none
      none none none).total = 237 := by decide
  have ht6 : (Catalog.get_products (Catalog.mkStore 237) 6 50 "id" "asc" none none
      none none none).total = 237 := by decide
  have h5 := C5_pagination Catalog.known_non_column_attrs (Catalog.mkStore 237) 5 50
    "id" "asc" none none none none none Catalog.SortCol.id rfl _ rfl
    (by decide) (by decide) (by decide)
  have h6 := C5_pagination Catalog.known_non_column_attrs (Catalog.mkStore 237) 6 50
    "id" "asc" none none none none none Catalog.SortCol.id rfl _ rfl
    (by decide) (by decide) (by decide)
  obtain ⟨hok5, -, -, -, -, -, h5c⟩ := h5
  obtain ⟨-, -, -, -, -, -, h6c⟩ := h6
  obtain ⟨hpages, hlen, -⟩ := h5c ⟨ht5, rfl⟩
  obtain ⟨-, -, hnil⟩ := h6c ⟨ht6, rfl⟩
  exact ⟨hok5, hlen rfl, hnil rfl, hpages⟩

/-- The search predicate in propositional form: the term matches as a
case-insensitive substring in name, description, or SKU. -/
theorem Catalog.search_pred_iff (t : String) (p : Catalog.Product) :
    Catalog.search_pred t p = true ↔
      (Catalog.ilike p.name t = true ∨
       (∃ d, p.description = some d ∧ Catalog.ilike d t = true) ∨
       Catalog.ilike p.sku t = true) := by
  unfold Catalog.search_pred
  cases hd : p.description <;> simp [hd, or_assoc]

/-- The filter conjunction in propositional form, on filters whose present
string fields are nonempty. -/
theorem Catalog.matches_filters_iff (category brand : Option String)
    (min_price max_price : Option ℚ) (search : Option String) (p : Catalog.Product)
    (hc : category ≠ some "") (hb : brand ≠ some "") (hs : search ≠ some "") :
    Catalog.matches_filters category brand min_price max_price search p = true ↔
      ((∀ c, category = some c → p.category = c) ∧
       (∀ b, brand = some b → p.brand = b) ∧
       (∀ m, min_price = some m → m ≤ p.price) ∧
       (∀ m, max_price = some m → p.price ≤ m) ∧
       (∀ t, search = some t →
         (Catalog.ilike p.name t = true ∨
          (∃ d, p.description = some d ∧ Catalog.ilike d t = true) ∨
          Catalog.ilike p.sku t = true))) := by
  unfold Catalog.matches_filters
  cases category <;> cases brand <;> cases min_price <;> cases max_price <;>
    cases search <;>
    simp_all [Catalog.search_pred_iff, beq_iff_eq, and_assoc]

/-- C7: a store row belongs to the matching set exactly when it satisfies the
conjunction of every present predicate — category equality, brand equality,
inclusive price lower and upper bounds (min = max returns exact-price rows
only), and a case-insensitive substring search matched against name,
description, or SKU (a term matching only the description still matches).
Present string filters are nonempty here; the present-but-empty corner is
covered by C10. -/
theorem C7_predicate_conjunction (store : List Catalog.Product)
    (category brand : Option String) (min_price max_price : Option ℚ)
    (search : Option String) (p : Catalog.Product)
    (hc : category ≠ some "") (hb : brand ≠ some "") (hs : search ≠ some "") :
    p ∈ store.filter (Catalog.matches_filters category brand min_price max_price search) ↔
      (p ∈ store ∧
       (∀ c, category = some c → p.category = c) ∧
       (∀ b, brand = some b → p.brand = b) ∧
       (∀ m, min_price = some m → m ≤ p.price) ∧
       (∀ m, max_price = some m → p.price ≤ m) ∧
       (∀ t, search = some t →
         (Catalog.ilike p.name t = true ∨
          (∃ d, p.description = some d ∧ Catalog.ilike d t = true) ∨
          Catalog.ilike p.sku t = true))) := by
  rw [List.mem_filter]
  exact and_congr_right fun _ =>
    Catalog.matches_filters_iff category brand min_price max_price search p hc hb hs

/-- C7 witness: with category "Tools", price bounds 10 ≤ price ≤ 10, and
search term "sturdy" (which occurs only in the description), the sample row
is in the matching set, and all five predicates hold of it. -/
theorem C7_predicate_conjunction_witness :
    Catalog.sampleProduct ∈ [Catalog.sampleProduct] ∧
    (∀ c, (some "Tools" : Option String) = some c →
      Catalog.sampleProduct.category = c) ∧
    (∀ b, (none : Option String) = some b → Catalog.sampleProduct.brand = b) ∧
    (∀ m, (some (10 : ℚ) : Option ℚ) = some m → m ≤ Catalog.sampleProduct.price) ∧
    (∀ m, (some (10 : ℚ) : Option ℚ) = some m → Catalog.sampleProduct.price ≤ m) ∧
    (∀ t, (some "sturdy" : Option String) = some t →
      (Catalog.ilike Catalog.sampleProduct.name t = true ∨
       (∃ d, Catalog.sampleProduct.description = some d ∧ Catalog.ilike d t = true) ∨
       Catalog.ilike Catalog.sampleProduct.sku t = true)) :=
  (C7_predicate_conjunction [Catalog.sampleProduct] (some "Tools") none
    (some (10 : ℚ)) (some (10 : ℚ)) (some "sturdy") Catalog.sampleProduct
    (by decide) (by decide) (by decide)).mp (by decide)

/-- C10: a list query whose category, brand, or search parameter is
present-but-empty returns exactly the same response (data, total, pages —
indeed the same record) as the query with that parameter absent, because
predicate application tests truthiness; yet the two parameter mappings
serialize to different canonical forms, so they derive different cache keys
(shown on the digests of a concrete instance), populating separate cache
entries with identical contents. -/
theorem C10_empty_equals_absent (store : List Catalog.Product) (page limit : Nat)
    (sort_by sort_order : String) (category brand : Option String)
    (min_price max_price : Option ℚ) (search : Option String) :
    (Catalog.get_products store page limit sort_by sort_order (some "") brand
        min_price max_price search =
      Catalog.get_products store page limit sort_by sort_order none brand
        min_price max_price search) ∧
    (Catalog.get_products store page limit sort_by sort_order category (some "")
        min_price max_price search =
      Catalog.get_products store page limit sort_by sort_order category none
        min_price max_price search) ∧
    (Catalog.get_products store page limit sort_by sort_order category brand
        min_price max_price (some "") =
      Catalog.get_products store page limit sort_by sort_order category brand
        min_price max_price none) ∧
    (CacheKey.canonical (Catalog.list_cache_params page limit sort_by sort_order
        (some "") brand min_price max_price search) ≠
      CacheKey.canonical (Catalog.list_cache_params page limit sort_by sort_order
        none brand min_price max_price search)) ∧
    (CacheKey.canonical (Catalog.list_cache_params page limit sort_by sort_order
        category (some "") min_price max_price search) ≠
      CacheKey.canonical (Catalog.list_cache_params page limit sort_by sort_order
        category none min_price max_price search)) ∧
    (CacheKey.canonical (Catalog.list_cache_params page limit sort_by sort_order
        category brand min_price max_price (some "")) ≠
      CacheKey.canonical (Catalog.list_cache_params page limit sort_by sort_order
        category brand min_price max_price none)) ∧
    CacheKey.generate_key "products:list"
        (Catalog.list_cache_params 1 50 "id" "asc" (some "") none none none none) ≠
      CacheKey.generate_key "products:list"
        (Catalog.list_cache_params 1 50 "id" "asc" none none none none none) := by
  refine ⟨rfl, rfl, rfl, ?_, ?_, ?_, ?_⟩
  · show CacheKey.canonical
        ([("page", .int page), ("limit", .int limit), ("sort_by", .str sort_by),
          ("sort_order", .str sort_order)] ++ ("category", CacheKey.PVal.str "") ::
          [("brand", Catalog.optStrVal brand), ("min_price", Catalog.optNumVal min_price),
           ("max_price", Catalog.optNumVal max_price), ("search", Catalog.optStrVal search)]) ≠
      CacheKey.canonical
        ([("page", .int page), ("limit", .int limit), ("sort_by", .str sort_by),
          ("sort_order", .str sort_order)] ++ ("category", CacheKey.PVal.null) ::
          [("brand", Catalog.optStrVal brand), ("min_price", Catalog.optNumVal min_price),
           ("max_price", Catalog.optNumVal max_price), ("search", Catalog.optStrVal search)])
    apply CacheKey.canonical_middle_replace_ne CacheKey.serHeadNe_null_emptyStr
    show (["page", "limit", "sort_by", "sort_order", "category", "brand",
      "min_price", "max_price", "search"] : List String).Nodup
    decide
  · show CacheKey.canonical
        ([("page", .int page), ("limit", .int limit), ("sort_by", .str sort_by),
          ("sort_order", .str sort_order), ("category", Catalog.optStrVal category)] ++
          ("brand", CacheKey.PVal.str "") ::
          [("min_price", Catalog.optNumVal min_price),
           ("max_price", Catalog.optNumVal max_price), ("search", Catalog.optStrVal search)]) ≠
      CacheKey.canonical
        ([("page", .int page), ("limit", .int limit), ("sort_by", .str sort_by),
          ("sort_order", .str sort_order), ("category", Catalog.optStrVal category)] ++
          ("brand", CacheKey.PVal.null) ::
          [("min_price", Catalog.optNumVal min_price),
           ("max_price", Catalog.optNumVal max_price), ("search", Catalog.optStrVal search)])
    apply CacheKey.canonical_middle_replace_ne CacheKey.serHeadNe_null_emptyStr
    show (["page", "limit", "sort_by", "sort_order", "category", "brand",
      "min_price", "max_price", "search"] : List String).Nodup
    decide
  · show CacheKey.canonical
        ([("page", .int page), ("limit", .int limit), ("sort_by", .str sort_by),
          ("sort_order", .str sort_order), ("category", Catalog.optStrVal category),
          ("brand", Catalog.optStrVal brand), ("min_price", Catalog.optNumVal min_price),
          ("max_price", Catalog.optNumVal max_price)] ++
          ("search", CacheKey.PVal.str "") :: []) ≠
      CacheKey.canonical
        ([("page", .int page), ("limit", .int limit), ("sort_by", .str sort_by),
          ("sort_order", .str sort_order), ("category", Catalog.optStrVal category),
          ("brand", Catalog.optStrVal brand), ("min_price", Catalog.optNumVal min_price),
          ("max_price", Catalog.optNumVal max_price)] ++
          ("search", CacheKey.PVal.null) :: [])
    apply CacheKey.canonical_middle_replace_ne CacheKey.serHeadNe_null_emptyStr
    show (["page", "limit", "sort_by", "sort_order", "category", "brand",
      "min_price", "max_price", "search"] : List String).Nodup
    decide
  · decide
